import Mathlib

/-!
Verification of the Store subsystem of the tstyche repository: manifest-backed
tag resolution (`StoreService.resolveTag`, `validateTag`, `supportedTags`,
`install`, `update`) and the installation worker (`CompilerModuleWorker.ensure`).

The embedding follows `src/src/store/StoreService.ts` and
`src/src/store/CompilerModuleWorker.ts`.  The manifest's `resolutions` object
is modelled as an insertion-ordered association list (JavaScript objects with
non-index string keys preserve insertion order, which the code relies on via
`Object.keys(...).slice(-5)`).  Diagnostics are modelled as values emitted in a
list; filesystem and process effects of `ensure` are modelled as an ordered
trace of events, driven by a world record that fixes the outcome of each
external operation (lock poll, mkdir, file writes, the npm installer).

`Version.satisfies` (Version.ts) and `ManifestWorker.isOutdated`
(ManifestWorker.ts) are not part of the corpus and are modelled from the spec,
as marked on their doc comments.
-/

namespace Tstyche

/-- A diagnostic as constructed by `Diagnostic.error` / `Diagnostic.warning`:
a severity and the list of message lines. -/
inductive Diagnostic where
  | error (lines : List String)
  | warning (lines : List String)
deriving DecidableEq, Repr

/-- The manifest record (`ManifestWorker.ts` / spec section 3): tag
resolutions in insertion order, known versions, fetch timestamp, and the
optional last-used map. -/
structure Manifest where
  resolutions : List (String × String)
  versions : List String
  lastFetched : Nat
  lastUsed : Option (List (String × Nat)) := none
deriving DecidableEq, Repr

/-- JavaScript property read `resolutions[tag]` on the manifest object,
as an association-list lookup (`undefined` becomes `none`). -/
def lookupTag (resolutions : List (String × String)) (tag : String) : Option String :=
  match resolutions.find? (fun entry => entry.1 == tag) with
  | some entry => some entry.2
  | none => none

/-- `Object.keys(this.#manifest.resolutions)`: the keys in insertion order. -/
def resolutionKeys (m : Manifest) : List String :=
  m.resolutions.map Prod.fst

/-- `keys.slice(-5)`: the last up-to-five elements, in order. -/
def lastFive (keys : List String) : List String :=
  keys.drop (keys.length - 5)

/-- Modelled from the spec: `ManifestWorker.isOutdated(manifest,
ageToleranceSeconds)` of ManifestWorker.ts is not in the corpus; per spec
section 4.2 it is "true iff now - manifest.lastFetched > ageToleranceSeconds". -/
def ManifestWorker.isOutdated (m : Manifest) (ageTolerance : Nat) (now : Nat) : Bool :=
  decide (now - m.lastFetched > ageTolerance)

/-- `Diagnostic.error("Store manifest is not open. ...")` emitted by every
StoreService method that runs before `open()` succeeded. -/
def manifestNotOpenDiagnostic : Diagnostic :=
  .error ["Store manifest is not open. Call 'StoreService.open()' first."]

/-- The staleness warning emitted by `resolveTag` and `validateTag`. -/
def staleMetadataWarning (tag : String) : Diagnostic :=
  .warning
    ["Failed to update metadata of the 'typescript' package from the registry.",
     "The resolution of the '" ++ tag ++ "' tag may be outdated."]

/-- `Diagnostic.error("Cannot add the 'typescript' package for the '...' tag.")`. -/
def cannotAddDiagnostic (tag : String) : Diagnostic :=
  .error ["Cannot add the 'typescript' package for the '" ++ tag ++ "' tag."]

/-- `Diagnostic.fromError("Failed to install 'typescript@...'.", error)`: the
fixed first line followed by the lines of the underlying cause. -/
def failedInstallDiagnostic (version : String) (cause : List String) : Diagnostic :=
  .error (("Failed to install 'typescript@" ++ version ++ "'.") :: cause)

/-- `StoreService.resolveTag` (StoreService.ts lines 112-138).  The state is
`none` before `open()` succeeded, `some m` afterwards; `now` is the clock
`isOutdated` reads.  Returns the resolved version (or `none`) and the list of
diagnostics emitted during the call. -/
def StoreService.resolveTag (manifest : Option Manifest) (now : Nat) (tag : String) :
    Option String × List Diagnostic :=
  match manifest with
  | none => (none, [manifestNotOpenDiagnostic])
  | some m =>
    if m.versions.contains tag then
      (some tag, [])
    else
      let version := lookupTag m.resolutions tag
      if ManifestWorker.isOutdated m 60 now && (lastFive (resolutionKeys m)).contains tag then
        (version, [staleMetadataWarning tag])
      else
        (version, [])

/-- `s.slice(0, n)` on a JavaScript string: the first `n` characters. -/
def sliceTo (s : String) (n : Nat) : String :=
  String.mk (s.data.take n)

/-- `s.startsWith(p)` on a JavaScript string. -/
def jsStartsWith (s p : String) : Bool :=
  p.data.isPrefixOf s.data

/-- `StoreService.validateTag` (StoreService.ts lines 150-174).  Returns the
boolean result and the diagnostics emitted during the call.  Note the source
guards the warning only by `resolutions["latest"] != null` and a
first-three-characters prefix test - it never consults `isOutdated`. -/
def StoreService.validateTag (manifest : Option Manifest) (tag : String) :
    Bool × List Diagnostic :=
  match manifest with
  | none => (false, [manifestNotOpenDiagnostic])
  | some m =>
    if m.versions.contains tag || (resolutionKeys m).contains tag then
      (true, [])
    else
      match lookupTag m.resolutions "latest" with
      | some latest =>
        if jsStartsWith tag (sliceTo latest 3) then
          (false, [staleMetadataWarning tag])
        else
          (false, [])
      | none => (false, [])

/-- `StoreService.supportedTags` (StoreService.ts lines 24-32):
`[...Object.keys(resolutions), ...versions].sort()`. -/
def StoreService.supportedTags (manifest : Option Manifest) :
    List String × List Diagnostic :=
  match manifest with
  | none => ([], [manifestNotOpenDiagnostic])
  | some m =>
    ((resolutionKeys m ++ m.versions).mergeSort (fun a b => decide (a ≤ b)), [])

/-- `this.#manifest.lastUsed[version] = Date.now()` on the association list:
overwrite an existing entry in place, else append. -/
def setLastUsed (entries : List (String × Nat)) (version : String) (now : Nat) :
    List (String × Nat) :=
  if entries.any (fun e => e.1 == version) then
    entries.map (fun e => if e.1 == version then (e.1, now) else e)
  else
    entries ++ [(version, now)]

/-- `StoreService.install` (StoreService.ts lines 34-69).  The call to
`CompilerModuleWorker.ensure` is abstracted by `ensureOutcome`: `.ok mp` when
it returns module path `mp` (possibly `none`), `.error cause` when it throws
(caught at line 53 and reported).  Returns the new manifest state, the module
path, and the diagnostics emitted. -/
def StoreService.install (manifest : Option Manifest) (now : Nat) (tag : String)
    (ensureOutcome : String → Except (List String) (Option String)) :
    Option Manifest × Option String × List Diagnostic :=
  match manifest with
  | none => (none, none, [manifestNotOpenDiagnostic])
  | some m =>
    match StoreService.resolveTag (some m) now tag with
    | (none, resolveDiagnostics) =>
      (some m, none, resolveDiagnostics ++ [cannotAddDiagnostic tag])
    | (some version, resolveDiagnostics) =>
      match ensureOutcome version with
      | .error cause =>
        (some m, none, resolveDiagnostics ++ [failedInstallDiagnostic version cause])
      | .ok none => (some m, none, resolveDiagnostics)
      | .ok (some modulePath) =>
        (some { m with
                  lastUsed := some (setLastUsed (m.lastUsed.getD []) version now) },
         some modulePath, resolveDiagnostics)

/-- `StoreService.update` (StoreService.ts lines 140-148).  The delegated
`ManifestWorker.update` is abstracted by `updateFn`. -/
def StoreService.update (manifest : Option Manifest) (updateFn : Manifest → Manifest) :
    Option Manifest × List Diagnostic :=
  match manifest with
  | none => (none, [manifestNotOpenDiagnostic])
  | some m => (some (updateFn m), [])

/-- Split a character list at every dot. -/
def splitAtDots : List Char → List (List Char)
  | [] => [[]]
  | c :: rest =>
    match splitAtDots rest with
    | [] => [[c]]
    | group :: groups =>
      if c = '.' then [] :: group :: groups else (c :: group) :: groups

/-- A digit run to its numeric value; anything else reads as 0. -/
def componentToNat (cs : List Char) : Nat :=
  if cs ≠ [] ∧ cs.all (fun c => c.isDigit) then
    cs.foldl (fun acc c => acc * 10 + (c.toNat - 48)) 0
  else 0

/-- Dotted version string to its numeric components. -/
def parseVersionComponents (version : String) : List Nat :=
  (splitAtDots version.data).map componentToNat

/-- Lexicographic order on version component lists; a missing trailing
component compares below any present one, so `[5, 3] <= [5, 3, 0]`. -/
def versionComponentsLe : List Nat → List Nat → Bool
  | [], _ => true
  | _ :: _, [] => false
  | a :: as, b :: bs =>
    if a < b then true
    else if b < a then false
    else versionComponentsLe as bs

/-- Modelled from the spec: `Version.satisfies(version, boundary)` of
Version.ts is not in the corpus; per spec section 4.3 step 5 it decides the
"5.3.0 boundary": true iff the dotted numeric version is at or above the
boundary. -/
def Version.satisfies (version boundary : String) : Bool :=
  versionComponentsLe (parseVersionComponents boundary) (parseVersionComponents version)

/-- `Path.join(this.#cachePath, compilerVersion)`. -/
def installationPathOf (cachePath compilerVersion : String) : String :=
  cachePath ++ "/" ++ compilerVersion

/-- `Path.join(installationPath, "__ready__")`. -/
def readyFilePathOf (cachePath compilerVersion : String) : String :=
  installationPathOf cachePath compilerVersion ++ "/__ready__"

/-- `Path.join(installationPath, "node_modules", "typescript", "lib",
"tsserverlibrary.js")`. -/
def tsserverFilePathOf (cachePath compilerVersion : String) : String :=
  installationPathOf cachePath compilerVersion ++ "/node_modules/typescript/lib/tsserverlibrary.js"

/-- `Path.join(installationPath, "node_modules", "typescript", "lib",
"typescript.js")`. -/
def typescriptFilePathOf (cachePath compilerVersion : String) : String :=
  installationPathOf cachePath compilerVersion ++ "/node_modules/typescript/lib/typescript.js"

/-- The artifact path `ensure` selects at its tail (CompilerModuleWorker.ts
lines 60-64): `typescript.js` iff the version satisfies the 5.3 boundary,
`tsserverlibrary.js` otherwise. -/
def selectedArtifactPath (cachePath compilerVersion : String) : String :=
  if Version.satisfies compilerVersion "5.3" then
    typescriptFilePathOf cachePath compilerVersion
  else
    tsserverFilePathOf cachePath compilerVersion

/-- How the spawned npm installer terminates (CompilerModuleWorker.ts lines
96-110): a close with an exit code and no signal, a close by signal (the
spawn timeout or the abort signal kills the process), or an 'error' event. -/
inductive InstallerOutcome where
  | exited (code : Nat)
  | killed
  | spawnFailed (message : String)
deriving DecidableEq, Repr

/-- `CompilerModuleWorker.#installPackage`: the promise resolves on exit code
0 (the later `reject` calls on lines 105-109 are no-ops on a settled promise)
and rejects with the corresponding error message otherwise. -/
def installPackage (timeoutSeconds : Nat) (outcome : InstallerOutcome) :
    Except (List String) Unit :=
  match outcome with
  | .exited 0 => .ok ()
  | .exited code => .error ["Process exited with code " ++ toString code ++ "."]
  | .killed => .error ["Setup timeout of " ++ toString timeoutSeconds ++ "s was exceeded."]
  | .spawnFailed message => .error [message]

/-- One observable step of `ensure`: a filesystem or process effect, or a
diagnostic sent to `onDiagnostic`.  An effect event is recorded only when the
underlying operation succeeds. -/
inductive StoreEvent where
  | storeInfo (compilerVersion installationPath : String)
  | mkdirCreated (path : String)
  | lockCreated (path : String)
  | descriptorWritten (path : String)
  | installerInvoked (path : String)
  | readyMarkerWritten (path : String)
  | lockReleased (path : String)
  | diagnosticEmitted (d : Diagnostic)
deriving DecidableEq, Repr

/-- The environment one `ensure` call runs in: the result of the
`Lock.isLocked` poll (with the text the Lock reports on a timeout), whether
the ready marker already exists, and the outcome of each fallible external
operation (`none` = succeeds, `some text` = throws with that message). -/
structure EnsureWorld where
  locked : Bool
  lockDiagnosticText : String
  readyExists : Bool
  mkdirError : Option String
  writeDescriptorError : Option String
  installerOutcome : InstallerOutcome
  writeReadyError : Option String
deriving DecidableEq, Repr

/-- `CompilerModuleWorker.ensure` (CompilerModuleWorker.ts lines 22-65) as a
trace semantics over an `EnsureWorld`: the returned module path and the
ordered list of events.  The try block runs mkdir, Lock construction,
descriptor write, the installer, the ready-marker write and the lock release
in sequence; the first failure jumps to the catch, which emits one diagnostic
and falls through - the version-boundary return at the tail runs on every
path that passes the lock poll. -/
def CompilerModuleWorker.ensure (cachePath : String) (timeoutSeconds : Nat)
    (compilerVersion : String) (world : EnsureWorld) :
    Option String × List StoreEvent :=
  let installationPath := installationPathOf cachePath compilerVersion
  if world.locked then
    (none,
     [.diagnosticEmitted
        (failedInstallDiagnostic compilerVersion [world.lockDiagnosticText])])
  else
    let installEvents : List StoreEvent :=
      if world.readyExists then []
      else
        .storeInfo compilerVersion installationPath ::
          match world.mkdirError with
          | some errorText =>
            [.diagnosticEmitted (failedInstallDiagnostic compilerVersion [errorText])]
          | none =>
            .mkdirCreated installationPath :: .lockCreated installationPath ::
              match world.writeDescriptorError with
              | some errorText =>
                [.diagnosticEmitted (failedInstallDiagnostic compilerVersion [errorText])]
              | none =>
                .descriptorWritten installationPath ::
                  .installerInvoked installationPath ::
                    match installPackage timeoutSeconds world.installerOutcome with
                    | .error cause =>
                      [.diagnosticEmitted (failedInstallDiagnostic compilerVersion cause)]
                    | .ok _ =>
                      match world.writeReadyError with
                      | some errorText =>
                        [.diagnosticEmitted
                           (failedInstallDiagnostic compilerVersion [errorText])]
                      | none =>
                        [.readyMarkerWritten (readyFilePathOf cachePath compilerVersion),
                         .lockReleased installationPath]
    (some (selectedArtifactPath cachePath compilerVersion), installEvents)

/-- The diagnostics an event trace emits, in order. -/
def diagnosticsOf (events : List StoreEvent) : List Diagnostic :=
  events.filterMap fun e =>
    match e with
    | .diagnosticEmitted d => some d
    | _ => none

/-- Whether an event is a lock release. -/
def releasesLock : StoreEvent → Bool
  | .lockReleased _ => true
  | _ => false

/-- A manifest fetched at time 1000 whose latest resolution is 5.6.2; at
`now = 1000` it is as fresh as a manifest can be. -/
def freshManifest : Manifest :=
  { resolutions := [("latest", "5.6.2")], versions := ["5.6.2"], lastFetched := 1000 }

/-- A manifest fetched at time 0 with five resolution keys; at `now = 100` it
is stale for the 60 second tolerance. -/
def staleManifest : Manifest :=
  { resolutions := [("beta", "5.7.0"), ("latest", "5.6.2"), ("next", "5.7.0"),
                    ("rc", "5.6.1"), ("5.6", "5.6.2")],
    versions := ["5.6.1", "5.6.2", "5.7.0"], lastFetched := 0 }

/-- Closed form of `resolveTag` for a tag outside the version set: the result
is the `resolutions` lookup, and the warning fires exactly on the staleness
condition. -/
theorem resolveTag_eval (m : Manifest) (now : Nat) (tag : String)
    (h : tag ∉ m.versions) :
    StoreService.resolveTag (some m) now tag =
      (lookupTag m.resolutions tag,
       if now - m.lastFetched > 60 ∧ tag ∈ lastFive (resolutionKeys m) then
         [staleMetadataWarning tag]
       else []) := by
  have hc : m.versions.contains tag = false := by simp [h]
  unfold StoreService.resolveTag
  simp only [hc, Bool.false_eq_true, if_false]
  by_cases hw : now - m.lastFetched > 60 ∧ tag ∈ lastFive (resolutionKeys m)
  · have hb : (ManifestWorker.isOutdated m 60 now &&
        (lastFive (resolutionKeys m)).contains tag) = true := by
      unfold ManifestWorker.isOutdated
      simp [hw.1, hw.2]
    rw [hb]
    simp [hw]
  · have hb : (ManifestWorker.isOutdated m 60 now &&
        (lastFive (resolutionKeys m)).contains tag) = false := by
      unfold ManifestWorker.isOutdated
      rcases Decidable.not_and_iff_or_not.mp hw with h1 | h2
      · simp [h1]
      · simp [h2]
    rw [hb]
    simp [hw]

/-- C5: on an open manifest, `resolveTag` returns the tag itself when it is a
known concrete version, the mapped resolution when it is a resolution key,
and `none` ("unresolvable") otherwise - the staleness warning never changes
the returned value. -/
theorem resolveTag_resolution (m : Manifest) (now : Nat) (tag : String) :
    (StoreService.resolveTag (some m) now tag).1 =
      if tag ∈ m.versions then some tag else lookupTag m.resolutions tag := by
  by_cases h : tag ∈ m.versions
  · have hc : m.versions.contains tag = true := by simp [h]
    unfold StoreService.resolveTag
    simp [hc, h]
  · rw [resolveTag_eval m now tag h]
    simp [h]

/-- C6: for a tag that is not a known concrete version, `resolveTag` emits the
staleness warning iff the manifest's age exceeds the 60 second tolerance and
the tag is among the five most recently added resolution keys; in every case
the returned value is the `resolutions` lookup, unchanged by the warning. -/
theorem resolveTag_staleness_condition (m : Manifest) (now : Nat) (tag : String)
    (h : tag ∉ m.versions) :
    ((StoreService.resolveTag (some m) now tag).2 = [staleMetadataWarning tag] ∨
       (StoreService.resolveTag (some m) now tag).2 = []) ∧
    ((StoreService.resolveTag (some m) now tag).2 ≠ [] ↔
       now - m.lastFetched > 60 ∧ tag ∈ lastFive (resolutionKeys m)) ∧
    (StoreService.resolveTag (some m) now tag).1 = lookupTag m.resolutions tag := by
  rw [resolveTag_eval m now tag h]
  by_cases hw : now - m.lastFetched > 60 ∧ tag ∈ lastFive (resolutionKeys m)
  · simp [hw, staleMetadataWarning]
  · simp [hw]

/-- C6 witness: at the stale manifest and `now = 100`, resolving the "latest"
tag emits the warning and still returns 5.6.2. -/
theorem resolveTag_staleness_condition_witness :
    ((StoreService.resolveTag (some staleManifest) 100 "latest").2 =
        [staleMetadataWarning "latest"] ∨
       (StoreService.resolveTag (some staleManifest) 100 "latest").2 = []) ∧
    ((StoreService.resolveTag (some staleManifest) 100 "latest").2 ≠ [] ↔
       100 - staleManifest.lastFetched > 60 ∧
         "latest" ∈ lastFive (resolutionKeys staleManifest)) ∧
    (StoreService.resolveTag (some staleManifest) 100 "latest").1 =
      lookupTag staleManifest.resolutions "latest" :=
  resolveTag_staleness_condition staleManifest 100 "latest" (by decide)

/-- C3 counterexample: at `now = 1000` the fresh manifest (fetched at 1000) is
not outdated for the 60 second tolerance, yet `validateTag "5.6"` - a tag
sharing the first three characters of the latest resolution 5.6.2 - emits the
staleness warning while returning false.  The source's warning guard never
consults staleness. -/
theorem validateTag_fresh_prefix_warning :
    ManifestWorker.isOutdated freshManifest 60 1000 = false ∧
    StoreService.validateTag (some freshManifest) "5.6" =
      (false, [staleMetadataWarning "5.6"]) := by
  exact ⟨by decide, by decide⟩

/-- C3 amended: for a tag that is neither a known version nor a resolution
key, `validateTag` returns false and emits the prefix-match staleness warning
iff the manifest has a "latest" resolution whose first three characters are a
prefix of the tag - independently of the manifest's age. -/
theorem validateTag_prefix_warning (m : Manifest) (tag : String)
    (h1 : tag ∉ m.versions) (h2 : tag ∉ resolutionKeys m) :
    (StoreService.validateTag (some m) tag).1 = false ∧
    ((StoreService.validateTag (some m) tag).2 = [staleMetadataWarning tag] ↔
       ∃ latest, lookupTag m.resolutions "latest" = some latest ∧
         jsStartsWith tag (sliceTo latest 3) = true) ∧
    ((StoreService.validateTag (some m) tag).2 = [staleMetadataWarning tag] ∨
       (StoreService.validateTag (some m) tag).2 = []) := by
  have hc : (m.versions.contains tag || (resolutionKeys m).contains tag) = false := by
    simp [h1, h2]
  simp only [StoreService.validateTag]
  rw [hc]
  simp only [Bool.false_eq_true, if_false]
  rcases hl : lookupTag m.resolutions "latest" with _ | latest
  · dsimp only
    refine ⟨rfl, ?_, Or.inr rfl⟩
    constructor
    · intro he; exact List.noConfusion he
    · intro ⟨l, hsome, _⟩
      exact Option.noConfusion hsome
  · dsimp only
    by_cases hp : jsStartsWith tag (sliceTo latest 3) = true
    · rw [if_pos hp]
      refine ⟨rfl, ?_, Or.inl rfl⟩
      exact ⟨fun _ => ⟨latest, rfl, hp⟩, fun _ => rfl⟩
    · rw [if_neg hp]
      refine ⟨rfl, ?_, Or.inr rfl⟩
      constructor
      · intro he; exact List.noConfusion he
      · intro ⟨l, hsome, hpre⟩
        have hle : latest = l := Option.some.inj hsome
        exact absurd (hle ▸ hpre) hp

/-- C3 amended witness: at the fresh manifest, the tag "5.6" is neither a
version nor a key, returns false and draws the warning via the 5.6.2 prefix. -/
theorem validateTag_prefix_warning_witness :
    (StoreService.validateTag (some freshManifest) "5.6").1 = false ∧
    ((StoreService.validateTag (some freshManifest) "5.6").2 =
        [staleMetadataWarning "5.6"] ↔
       ∃ latest, lookupTag freshManifest.resolutions "latest" = some latest ∧
         jsStartsWith "5.6" (sliceTo latest 3) = true) ∧
    ((StoreService.validateTag (some freshManifest) "5.6").2 =
        [staleMetadataWarning "5.6"] ∨
       (StoreService.validateTag (some freshManifest) "5.6").2 = []) :=
  validateTag_prefix_warning freshManifest "5.6" (by decide) (by decide)

/-- C9: before `open()` succeeded (no manifest), `resolveTag`, `validateTag`,
`install` and `update` each emit the manifest-not-open diagnostic and return
their neutral result - `none`, `false`, `none` (with no manifest mutation)
and no effect respectively - instead of throwing. -/
theorem notOpen_operations_neutral (now : Nat) (tag : String)
    (ensureOutcome : String → Except (List String) (Option String))
    (updateFn : Manifest → Manifest) :
    StoreService.resolveTag none now tag = (none, [manifestNotOpenDiagnostic]) ∧
    StoreService.validateTag none tag = (false, [manifestNotOpenDiagnostic]) ∧
    StoreService.install none now tag ensureOutcome =
      (none, none, [manifestNotOpenDiagnostic]) ∧
    StoreService.update none updateFn = (none, [manifestNotOpenDiagnostic]) :=
  ⟨rfl, rfl, rfl, rfl⟩

/-- C10: on an open manifest, `supportedTags` is a permutation of the
resolution keys together with the known versions, sorted lexicographically,
with no diagnostic; before `open()` it emits the manifest-not-open diagnostic
and returns the empty list. -/
theorem supportedTags_sorted_union (m : Manifest) :
    ((StoreService.supportedTags (some m)).1).Perm (resolutionKeys m ++ m.versions) ∧
    List.Sorted (fun a b : String => a ≤ b) (StoreService.supportedTags (some m)).1 ∧
    (StoreService.supportedTags (some m)).2 = [] ∧
    StoreService.supportedTags none = ([], [manifestNotOpenDiagnostic]) := by
  refine ⟨List.mergeSort_perm _ _, ?_, rfl, rfl⟩
  have hs : List.Pairwise (fun a b : String => (decide (a ≤ b)) = true)
      ((resolutionKeys m ++ m.versions).mergeSort (fun a b => decide (a ≤ b))) :=
    List.sorted_mergeSort
      (fun a b c hab hbc => by
        simp only [decide_eq_true_eq] at *
        exact le_trans hab hbc)
      (fun a b => by
        simp only [Bool.or_eq_true, decide_eq_true_eq]
        exact le_total a b)
      (resolutionKeys m ++ m.versions)
  exact hs.imp (fun hab => by simpa using hab)

/-- A world where no lock is held, no ready marker exists, every filesystem
operation succeeds and the installer exits with code 0. -/
def cleanInstallWorld : EnsureWorld :=
  { locked := false, lockDiagnosticText := "", readyExists := false,
    mkdirError := none, writeDescriptorError := none,
    installerOutcome := .exited 0, writeReadyError := none }

/-- A world identical to `cleanInstallWorld` except that the installer exits
with code 1. -/
def installerFailureWorld : EnsureWorld :=
  { locked := false, lockDiagnosticText := "", readyExists := false,
    mkdirError := none, writeDescriptorError := none,
    installerOutcome := .exited 1, writeReadyError := none }

/-- A world where the ready marker already exists and nothing is locked. -/
def readyWorld : EnsureWorld :=
  { locked := false, lockDiagnosticText := "", readyExists := true,
    mkdirError := none, writeDescriptorError := none,
    installerOutcome := .exited 0, writeReadyError := none }

/-- C7: whenever `ensure` returns a module path, that path is selected by the
5.3.0 version boundary - `typescript.js` at or above it, `tsserverlibrary.js`
below it - and the boundary puts 5.4.2 on the primary-entry side and 5.2.0 on
the server-library side. -/
theorem ensure_artifact_boundary (cachePath : String) (timeoutSeconds : Nat)
    (compilerVersion : String) (world : EnsureWorld) (modulePath : String)
    (h : (CompilerModuleWorker.ensure cachePath timeoutSeconds compilerVersion world).1 =
      some modulePath) :
    modulePath =
      (if Version.satisfies compilerVersion "5.3" = true then
         typescriptFilePathOf cachePath compilerVersion
       else
         tsserverFilePathOf cachePath compilerVersion) ∧
    Version.satisfies "5.4.2" "5.3" = true ∧
    Version.satisfies "5.2.0" "5.3" = false := by
  refine ⟨?_, by decide, by decide⟩
  unfold CompilerModuleWorker.ensure at h
  by_cases hl : world.locked = true
  · rw [if_pos hl] at h
    exact Option.noConfusion h
  · rw [if_neg hl] at h
    exact (Option.some.inj h).symm

/-- C7 witness: a clean installation of 5.4.2 from the cache root "cache"
returns the primary compiler entry path. -/
theorem ensure_artifact_boundary_witness :
    "cache/5.4.2/node_modules/typescript/lib/typescript.js" =
      (if Version.satisfies "5.4.2" "5.3" = true then
         typescriptFilePathOf "cache" "5.4.2"
       else
         tsserverFilePathOf "cache" "5.4.2") ∧
    Version.satisfies "5.4.2" "5.3" = true ∧
    Version.satisfies "5.2.0" "5.3" = false :=
  ensure_artifact_boundary "cache" 30 "5.4.2" cleanInstallWorld
    "cache/5.4.2/node_modules/typescript/lib/typescript.js" (by decide)

/-- C8: when the ready marker already exists and the path is not locked,
`ensure` returns the artifact path with an empty event trace: no directory
creation, no Lock construction, no descriptor write, no installer run. -/
theorem ensure_ready_short_circuits (cachePath : String) (timeoutSeconds : Nat)
    (compilerVersion : String) (world : EnsureWorld)
    (h1 : world.locked = false) (h2 : world.readyExists = true) :
    CompilerModuleWorker.ensure cachePath timeoutSeconds compilerVersion world =
      (some (selectedArtifactPath cachePath compilerVersion), []) := by
  unfold CompilerModuleWorker.ensure
  rw [h1, h2]
  simp

/-- C8 witness: in the ready world, ensuring 5.4.2 returns the artifact path
and performs nothing. -/
theorem ensure_ready_short_circuits_witness :
    CompilerModuleWorker.ensure "cache" 30 "5.4.2" readyWorld =
      (some (selectedArtifactPath "cache" "5.4.2"), []) :=
  ensure_ready_short_circuits "cache" 30 "5.4.2" readyWorld rfl rfl

/-- C4: if an execution of `ensure` writes the ready marker, then the
installer succeeded and the trace is exactly the success trace, in which the
marker write sits strictly after the successful installer run and strictly
before the lock release; contrapositively, no execution with a failed
installer ever writes the marker. -/
theorem ensure_ready_marker_commit (cachePath : String) (timeoutSeconds : Nat)
    (compilerVersion : String) (world : EnsureWorld)
    (h : ∃ p, StoreEvent.readyMarkerWritten p ∈
      (CompilerModuleWorker.ensure cachePath timeoutSeconds compilerVersion world).2) :
    installPackage timeoutSeconds world.installerOutcome = .ok () ∧
    (CompilerModuleWorker.ensure cachePath timeoutSeconds compilerVersion world).2 =
      [.storeInfo compilerVersion (installationPathOf cachePath compilerVersion),
       .mkdirCreated (installationPathOf cachePath compilerVersion),
       .lockCreated (installationPathOf cachePath compilerVersion),
       .descriptorWritten (installationPathOf cachePath compilerVersion),
       .installerInvoked (installationPathOf cachePath compilerVersion),
       .readyMarkerWritten (readyFilePathOf cachePath compilerVersion),
       .lockReleased (installationPathOf cachePath compilerVersion)] := by
  obtain ⟨p, hp⟩ := h
  rcases world with ⟨locked, lockText, ready, mkdirE, descE, installerO, readyE⟩
  cases locked <;> cases ready <;>
    rcases mkdirE with _ | e1 <;> rcases descE with _ | e2 <;> rcases readyE with _ | e3 <;>
    rcases installerO with code | _ | msg <;>
    (try cases code) <;>
    simp_all [CompilerModuleWorker.ensure, installPackage]

/-- C4 witness: the clean installation of 5.2.0 writes its ready marker, the
installer succeeded, and the trace is the full success trace. -/
theorem ensure_ready_marker_commit_witness :
    installPackage 30 cleanInstallWorld.installerOutcome = .ok () ∧
    (CompilerModuleWorker.ensure "cache" 30 "5.2.0" cleanInstallWorld).2 =
      [.storeInfo "5.2.0" (installationPathOf "cache" "5.2.0"),
       .mkdirCreated (installationPathOf "cache" "5.2.0"),
       .lockCreated (installationPathOf "cache" "5.2.0"),
       .descriptorWritten (installationPathOf "cache" "5.2.0"),
       .installerInvoked (installationPathOf "cache" "5.2.0"),
       .readyMarkerWritten (readyFilePathOf "cache" "5.2.0"),
       .lockReleased (installationPathOf "cache" "5.2.0")] :=
  ensure_ready_marker_commit "cache" 30 "5.2.0" cleanInstallWorld
    ⟨"cache/5.2.0/__ready__", by decide⟩

/-- C1 evidence: with no pre-existing ready marker and an installer exiting
with code 1, `ensure "5.4.2"` emits exactly one diagnostic - naming the
version - and writes no ready marker, but then returns the typescript.js
artifact path instead of the "unavailable" result `none`: the catch block on
CompilerModuleWorker.ts lines 55-57 swallows the error and control falls
through to the version-boundary return. -/
theorem ensure_installer_failure_returns_path :
    diagnosticsOf (CompilerModuleWorker.ensure "cache" 30 "5.4.2" installerFailureWorld).2 =
      [failedInstallDiagnostic "5.4.2" ["Process exited with code 1."]] ∧
    StoreEvent.readyMarkerWritten "cache/5.4.2/__ready__" ∉
      (CompilerModuleWorker.ensure "cache" 30 "5.4.2" installerFailureWorld).2 ∧
    (CompilerModuleWorker.ensure "cache" 30 "5.4.2" installerFailureWorld).1 =
      some "cache/5.4.2/node_modules/typescript/lib/typescript.js" := by
  refine ⟨by decide, by decide, by decide⟩

/-- C2 evidence: in the same failed installation, `ensure` constructs the
Lock for the installation path but never releases it - `lock.release()` on
CompilerModuleWorker.ts line 54 is only reached on the success path, so the
failure path leaks the lock. -/
theorem ensure_lock_leak_on_failure :
    StoreEvent.lockCreated "cache/5.4.2" ∈
      (CompilerModuleWorker.ensure "cache" 30 "5.4.2" installerFailureWorld).2 ∧
    ((CompilerModuleWorker.ensure "cache" 30 "5.4.2" installerFailureWorld).2.any
        releasesLock) = false := by
  refine ⟨by decide, by decide⟩

end Tstyche
